import Mathlib

/-!
Verification of the Customer Support Chatbot repository.

The repository is a retrieval-augmented chatbot: an HTTP layer (`src/main.py`)
around a query pipeline `invoke_chain` that retrieves documents from a vector
store and forwards them, together with the question, to a generation model.
We embed the pipeline shallowly: the external collaborators (retriever
creation, similarity search, model loading, generation) are fields of an
environment record, each returning `Except String α` to model Python
exceptions carrying `str(e)`.  `invoke_chain` is translated line by line from
`src/main.py`, instrumented with a trace of the outbound provider calls it
performs, so that claims about side effects are statable.
-/

namespace Chatbot

/-- A retrieved document (langchain `Document`): its text content. -/
structure Document where
  page_content : String
deriving Repr, DecidableEq

/-- An outbound provider call made by the pipeline: a similarity search with
the query text, or a generation call with the rendered prompt. -/
inductive ProviderCall where
  | search : String → ProviderCall
  | generate : String → ProviderCall
deriving Repr, DecidableEq

/-- The external collaborators of `invoke_chain` in `src/main.py`:
`retriever_obj.load_retriever()`, `retriever.invoke(query)`,
`model_loader.load_llm()`, and the generation call (llm followed by
`StrOutputParser`, which yields the text of the model output).  Each is `Except`-valued:
`.error e` models the step raising a Python exception with `str(e) = e`. -/
structure PipelineEnv where
  load_retriever : Except String Unit
  retriever_invoke : String → Except String (List Document)
  load_llm : Except String Unit
  llm_invoke : String → Except String String

/-- First part of the `product_bot` template in
`src/prompt_library/prompt.py`: everything before the `{context}`
placeholder. -/
def promptPart1 : String := "\n    You are an expert EcommerceBot specialized in product recommendations and handling customer queries.\n    Analyze the provided product titles, ratings, and reviews to provide accurate, helpful responses.\n    Stay relevant to the context, and keep your answers concise and informative.\n\n    IMPORTANT: If the context is empty or contains no relevant product information, politely explain that you don\x27t have access to product data and suggest the user try a different search term or contact support.\n\n    CONTEXT:\n    "

/-- Part of the `product_bot` template between the `{context}` and
`{question}` placeholders. -/
def promptPart2 : String := "\n\n    QUESTION: "

/-- Part of the `product_bot` template after the `{question}` placeholder. -/
def promptPart3 : String := "\n\n    YOUR ANSWER:\n    "

/-- The `product_bot` entry of `PROMPT_TEMPLATES` in
`src/prompt_library/prompt.py`, as the literal template text with its two
placeholders. -/
def product_bot_template : String :=
  promptPart1 ++ "{context}" ++ promptPart2 ++ "{question}" ++ promptPart3

/-- The map `PROMPT_TEMPLATES` from `src/prompt_library/prompt.py`: the template set,
keyed by name; only `product_bot` exists. -/
def PROMPT_TEMPLATES (key : String) : Option String :=
  if key = "product_bot" then some product_bot_template else none

/-- Rendering the `product_bot` template: substitute the context text for
`{context}` and the question for `{question}` (what
`ChatPromptTemplate` does with the template when the chain is invoked). -/
def render_product_bot (context question : String) : String :=
  promptPart1 ++ context ++ promptPart2 ++ question ++ promptPart3

/-- The text which stands for the retrieved documents when they are
substituted into the `{context}` placeholder by the external prompt library:
the contents of the documents, concatenated. -/
def docs_to_text (docs : List Document) : String :=
  String.intercalate "\n\n" (docs.map Document.page_content)

/-- The fixed no-results message returned by `invoke_chain` in `src/main.py`
when the similarity search finds zero documents. -/
def no_results_message : String := "I\x27m sorry, I couldn\x27t find any relevant product information for your query. Please try a different search term or make sure the product database has been populated."

/-- The message built by the `except` clause of `invoke_chain` in
`src/main.py`: the f-string with `str(e)` interpolated. -/
def technical_difficulties_message (e : String) : String :=
  "I\x27m experiencing technical difficulties. Error: " ++ e

/-- Translation of `invoke_chain` from `src/main.py`, instrumented with the list of outbound
provider calls it performs.  Following the source: load the retriever, invoke
it once as a pre-check (`test_docs`); if zero documents, return the fixed
no-results message; otherwise build the prompt template, load the llm, and
invoke the chain `{context: retriever, question: passthrough} | prompt | llm
| StrOutputParser` — which invokes the retriever a second time, renders the
prompt from its result and the query, and calls the generation model.  Any
`.error e` from a step takes the `except` branch. -/
def invoke_chain (env : PipelineEnv) (query : String) : String × List ProviderCall :=
  match env.load_retriever with
  | .error e => (technical_difficulties_message e, [])
  | .ok _ =>
    match env.retriever_invoke query with
    | .error e => (technical_difficulties_message e, [ProviderCall.search query])
    | .ok test_docs =>
      if test_docs.length = 0 then
        (no_results_message, [ProviderCall.search query])
      else
        match env.load_llm with
        | .error e => (technical_difficulties_message e, [ProviderCall.search query])
        | .ok _ =>
          match env.retriever_invoke query with
          | .error e =>
            (technical_difficulties_message e,
             [ProviderCall.search query, ProviderCall.search query])
          | .ok chain_docs =>
            match env.llm_invoke (render_product_bot (docs_to_text chain_docs) query) with
            | .error e =>
              (technical_difficulties_message e,
               [ProviderCall.search query, ProviderCall.search query])
            | .ok output =>
              (output,
               [ProviderCall.search query, ProviderCall.search query,
                ProviderCall.generate (render_product_bot (docs_to_text chain_docs) query)])

/-- The first exception raised along the execution of `invoke_chain`, if any:
mirrors the control flow of `invoke_chain`, yielding `some e` exactly when
some step raises `e` (and the `except` branch runs). -/
def pipeline_error (env : PipelineEnv) (query : String) : Option String :=
  match env.load_retriever with
  | .error e => some e
  | .ok _ =>
    match env.retriever_invoke query with
    | .error e => some e
    | .ok test_docs =>
      if test_docs.length = 0 then none
      else
        match env.load_llm with
        | .error e => some e
        | .ok _ =>
          match env.retriever_invoke query with
          | .error e => some e
          | .ok chain_docs =>
            match env.llm_invoke (render_product_bot (docs_to_text chain_docs) query) with
            | .error e => some e
            | .ok _ => none

/-- Number of similarity-search calls in a trace. -/
def countSearch (trace : List ProviderCall) : Nat :=
  trace.countP fun c => match c with | ProviderCall.search _ => true | _ => false

/-- Number of generation calls in a trace. -/
def countGenerate (trace : List ProviderCall) : Nat :=
  trace.countP fun c => match c with | ProviderCall.generate _ => true | _ => false

/-- An HTTP response: status code and JSON object body (as an association
list of string keys to string values). -/
structure HttpResponse where
  status : Nat
  body : List (String × String)
deriving Repr, DecidableEq

/-- The `GET /` handler `main` from `src/main.py`: it reads no state and
returns the fixed welcome JSON with status 200 (the FastAPI default). -/
def main_endpoint (_env : PipelineEnv) : HttpResponse :=
  { status := 200,
    body := [("message", "Welcome to the Product Information Bot API. Use the /get endpoint to chat with the bot.")] }

/-- The `POST /get` handler `chat` from `src/main.py`: it calls
`invoke_chain(msg)` and returns `{"response": result}` with status 200
(the FastAPI default; the handler has no error branch of its own). -/
def chat (env : PipelineEnv) (msg : String) : HttpResponse :=
  { status := 200, body := [("response", (invoke_chain env msg).1)] }

/-! ### Environment validation (`src/setup_database.py`, `utils/model_loader.py`) -/

/-- A process environment: `os.getenv` — `none` when the variable is unset. -/
def Environ : Type := String → Option String

/-- The `required_vars` list of `check_environment` in
`src/setup_database.py`. -/
def required_vars : List String :=
  ["GOOGLE_API_KEY", "ASTRA_DB_API_ENDPOINT", "ASTRA_DB_APPLICATION_TOKEN", "ASTRA_DB_KEYSPACE"]

/-- Python truthiness of `os.getenv(var)`: falsy when the variable is unset
(`None`) or set to the empty string. -/
def getenv_truthy (env : Environ) (var : String) : Bool :=
  match env var with
  | none => false
  | some s => !(s = "")

/-- The `missing_vars` list accumulated by `check_environment` in
`src/setup_database.py`: the required variables whose value is falsy, in
order. -/
def missing_vars (env : Environ) : List String :=
  required_vars.filter fun var => !(getenv_truthy env var)

/-- Translation of `check_environment` from `src/setup_database.py`: returns `True` iff no
required variable is missing, paired with the list of variable names the
function prints as missing (one `- var` line each) — empty on success. -/
def check_environment (env : Environ) : Bool × List String :=
  if (missing_vars env).isEmpty then (true, []) else (false, missing_vars env)

/-- Modelled from the spec: `utils/model_loader.py` is not under `src/` (only
its tests are).  Per §4.3 — the Model Provider "must fail at construction
time (before any call) if a required API credential is absent from the
environment, naming the missing variable(s)" — and the test
`test_model_loader_missing_api_key`, which expects the message
`Missing environment variables: [GOOGLE_API_KEY]` with the whole environment
cleared, `ModelLoader.__init__` validates exactly `GOOGLE_API_KEY` and raises
`EnvironmentError` naming the missing variables. -/
def model_loader_required_vars : List String := ["GOOGLE_API_KEY"]

/-- Modelled from the spec: the environment validation of `ModelLoader.__init__`
(see `model_loader_required_vars`).  `.error msg` models the raised
`EnvironmentError`. -/
def model_loader_init (env : Environ) : Except String Unit :=
  let missing := model_loader_required_vars.filter fun var => !(getenv_truthy env var)
  if missing.isEmpty then Except.ok ()
  else Except.error ("Missing environment variables: [\x27" ++ String.intercalate "\x27, \x27" missing ++ "\x27]")

/-! ### Retriever configuration (`retriever/retrieval.py`, spec-modelled) -/

/-- The configuration document, restricted to the parts the retriever reads:
an optional `retriever` section which may carry a `top_k` value. -/
structure RetrieverSection where
  top_k : Option Nat
deriving Repr, DecidableEq

/-- The loaded configuration as seen by `Retriever.load_retriever`. -/
structure Config where
  retriever : Option RetrieverSection
deriving Repr, DecidableEq

/-- Modelled from the spec: `retriever/retrieval.py` is not under `src/`
(only its tests are).  Per §4.2 step 1 — "top-k (default 3 if unspecified in
configuration)" — and §8 — "Default top-k is 3 when the
retriever section is absent; otherwise the configured value is used verbatim
in the similarity search call" — this is the `k` that
`Retriever.load_retriever` passes in `search_kwargs` to `as_retriever`. -/
def load_retriever_top_k (config : Config) : Nat :=
  match config.retriever with
  | none => 3
  | some section_ =>
    match section_.top_k with
    | none => 3
    | some k => k

/-! ### Ingestion validation (`data_ingestion/ingestion_pipeline.py`, spec-modelled) -/

/-- The required columns of the ingestion source table, per §4.1. -/
def required_columns : List String :=
  ["product_id", "product_title", "rating", "summary", "review"]

/-- Modelled from the spec: `data_ingestion/ingestion_pipeline.py` is not
under `src/` (only its tests are).  Per §4.1 — "reject (fail with a
data-validation error) if any required column is absent; error message must
name the required column set" — and the test `test_data_validation`, which
expects a `ValueError` whose message contains `CSV must contain columns:`,
`DataIngestion.__init__` validates the columns of the loaded table before any
embedding or vector-store call.  `.error msg` models the raised
`ValueError`; `.ok` means construction proceeds (no provider call has been
made either way). -/
def data_ingestion_validate (columns : List String) : Except String Unit :=
  if required_columns.all (fun c => columns.contains c) then Except.ok ()
  else Except.error ("CSV must contain columns: " ++ String.intercalate ", " required_columns)

/-! ### Theorems -/

/-- Splitting the technical-difficulties message around its fixed phrase. -/
theorem technical_difficulties_message_split (e : String) :
    technical_difficulties_message e =
      "I\x27m experiencing " ++ "technical difficulties" ++ ". Error: " ++ e := by
  unfold technical_difficulties_message
  have h : ("I\x27m experiencing " ++ "technical difficulties" ++ ". Error: " : String) =
      "I\x27m experiencing technical difficulties. Error: " := by decide
  rw [← h]

/-- Whenever some pipeline step raises, `invoke_chain` returns the
technical-difficulties message for that error. -/
theorem invoke_chain_of_error (env : PipelineEnv) (query e : String)
    (h : pipeline_error env query = some e) :
    (invoke_chain env query).1 = technical_difficulties_message e := by
  unfold pipeline_error at h
  unfold invoke_chain
  cases hlr : env.load_retriever with
  | error e1 =>
    rw [hlr] at h
    simp only [Option.some.injEq] at h
    simp [h]
  | ok u =>
    rw [hlr] at h
    cases hri : env.retriever_invoke query with
    | error e2 =>
      rw [hri] at h
      simp only [Option.some.injEq] at h
      simp [h]
    | ok test_docs =>
      rw [hri] at h
      by_cases hlen : test_docs.length = 0
      · simp [hlen] at h
      · simp only [if_neg hlen] at h ⊢
        cases hll : env.load_llm with
        | error e3 =>
          rw [hll] at h
          simp only [Option.some.injEq] at h
          simp [h]
        | ok u2 =>
          rw [hll] at h
          simp only at h ⊢
          cases hl : env.llm_invoke (render_product_bot (docs_to_text test_docs) query) with
          | error e5 =>
            rw [hl] at h
            simp only [Option.some.injEq] at h
            simp [h]
          | ok output =>
            rw [hl] at h
            simp at h

/-- C1: if the similarity search returns zero documents, `invoke_chain`
returns exactly the fixed no-results message and performs no generation
call. -/
theorem invoke_chain_no_documents (env : PipelineEnv) (query : String)
    (hload : env.load_retriever = Except.ok ())
    (hsearch : env.retriever_invoke query = Except.ok []) :
    (invoke_chain env query).1 = no_results_message ∧
    countGenerate (invoke_chain env query).2 = 0 := by
  unfold invoke_chain
  rw [hload, hsearch]
  exact ⟨rfl, rfl⟩

/-- Concrete witness for `invoke_chain_no_documents`: an environment whose
search returns the empty document list. -/
def envNoDocs : PipelineEnv :=
  { load_retriever := Except.ok ()
    retriever_invoke := fun _ => Except.ok []
    load_llm := Except.ok ()
    llm_invoke := fun _ => Except.ok "AI response" }

/-- Witness for C1 at a concrete environment and query. -/
theorem invoke_chain_no_documents_witness :
    (invoke_chain envNoDocs "test query").1 = no_results_message ∧
    countGenerate (invoke_chain envNoDocs "test query").2 = 0 :=
  invoke_chain_no_documents envNoDocs "test query" rfl rfl

/-- C2: if any pipeline step raises an exception `e`, `invoke_chain` does not
propagate it — it returns the fixed message, which contains both the phrase
"technical difficulties" and the error description `e`. -/
theorem invoke_chain_exception (env : PipelineEnv) (query e : String)
    (h : pipeline_error env query = some e) :
    (invoke_chain env query).1 = technical_difficulties_message e ∧
    ∃ a b, (invoke_chain env query).1 = a ++ "technical difficulties" ++ b ++ e := by
  have hmain := invoke_chain_of_error env query e h
  refine ⟨hmain, "I\x27m experiencing ", ". Error: ", ?_⟩
  rw [hmain, technical_difficulties_message_split]

/-- Concrete witness environment for C2: retriever creation raises. -/
def envRaises : PipelineEnv :=
  { load_retriever := Except.error "Test error"
    retriever_invoke := fun _ => Except.ok []
    load_llm := Except.ok ()
    llm_invoke := fun _ => Except.ok "AI response" }

/-- Witness for C2 at a concrete environment, query and error. -/
theorem invoke_chain_exception_witness :
    (invoke_chain envRaises "test query").1 = technical_difficulties_message "Test error" ∧
    ∃ a b, (invoke_chain envRaises "test query").1 =
      a ++ "technical difficulties" ++ b ++ "Test error" :=
  invoke_chain_exception envRaises "test query" "Test error" rfl

/-- C5: `POST /get` always answers with status 200 and the JSON body
`response: <pipeline answer>`, for every message (the empty string included)
and every backend behaviour — pipeline failures are never surfaced as HTTP
error status codes, since the pipeline always returns text. -/
theorem chat_endpoint_always_200 (env : PipelineEnv) (msg : String) :
    (chat env msg).status = 200 ∧
    (chat env msg).body = [("response", (invoke_chain env msg).1)] :=
  ⟨rfl, rfl⟩

/-- C9: `GET /` returns the fixed welcome JSON with status 200, whatever the
backend environment. -/
theorem root_endpoint_fixed (env : PipelineEnv) :
    main_endpoint env =
      { status := 200,
        body := [("message", "Welcome to the Product Information Bot API. Use the /get endpoint to chat with the bot.")] } :=
  rfl

/-- A concrete environment on the success path: one document retrieved,
generation succeeds. -/
def envOneDocA : PipelineEnv :=
  { load_retriever := Except.ok ()
    retriever_invoke := fun _ => Except.ok [{ page_content := "Test product content" }]
    load_llm := Except.ok ()
    llm_invoke := fun _ => Except.ok "AI response" }

/-- C3 counterexample: on the path where a document is retrieved, the code
performs the similarity search twice — once as the emptiness pre-check and
once inside the chain — so the trace holds two search calls, not one. -/
theorem invoke_chain_two_searches_counterexample :
    countSearch (invoke_chain envOneDocA "test query").2 = 2 ∧
    countGenerate (invoke_chain envOneDocA "test query").2 = 1 ∧
    ¬ countSearch (invoke_chain envOneDocA "test query").2 = 1 := by decide

/-- C3 (amended): on the path where at least one document is retrieved and
generation succeeds, `invoke_chain` performs exactly three outbound provider
calls — two similarity searches (the pre-check and the in-chain retrieval)
and one generation call — and nothing else. -/
theorem invoke_chain_success_calls (env : PipelineEnv) (query : String)
    (docs : List Document) (output : String)
    (hload : env.load_retriever = Except.ok ())
    (hdocs : env.retriever_invoke query = Except.ok docs)
    (hne : docs ≠ [])
    (hllm : env.load_llm = Except.ok ())
    (hgen : env.llm_invoke (render_product_bot (docs_to_text docs) query) = Except.ok output) :
    (invoke_chain env query).2 =
      [ProviderCall.search query, ProviderCall.search query,
       ProviderCall.generate (render_product_bot (docs_to_text docs) query)] ∧
    countSearch (invoke_chain env query).2 = 2 ∧
    countGenerate (invoke_chain env query).2 = 1 := by
  have hlen : ¬ docs.length = 0 := fun h => hne (List.length_eq_zero.mp h)
  unfold invoke_chain
  simp only [hload, hdocs, if_neg hlen, hllm, hgen]
  refine ⟨by trivial, ?_, ?_⟩
  · simp [countSearch, List.countP_cons, List.countP_nil]
  · simp [countGenerate, List.countP_cons, List.countP_nil]

/-- Witness for the amended C3 at a concrete environment. -/
theorem invoke_chain_success_calls_witness :
    (invoke_chain envOneDocA "test query").2 =
      [ProviderCall.search "test query", ProviderCall.search "test query",
       ProviderCall.generate
         (render_product_bot (docs_to_text [{ page_content := "Test product content" }])
           "test query")] ∧
    countSearch (invoke_chain envOneDocA "test query").2 = 2 ∧
    countGenerate (invoke_chain envOneDocA "test query").2 = 1 :=
  invoke_chain_success_calls envOneDocA "test query"
    [{ page_content := "Test product content" }] "AI response"
    rfl rfl (by decide) rfl rfl

/-- A concrete environment on the success path, for the C4 witness. -/
def envOneDocB : PipelineEnv :=
  { load_retriever := Except.ok ()
    retriever_invoke := fun _ => Except.ok [{ page_content := "Great headphones" }]
    load_llm := Except.ok ()
    llm_invoke := fun _ => Except.ok "AI response" }

/-- C4: when at least one document is retrieved and generation succeeds,
`invoke_chain` returns the generation output verbatim; the prompt passed to
the generation call is the `product_bot` template rendered with the
concatenated text of the retrieved documents for `{context}` and the literal
question for `{question}`, so the rendered prompt contains both. -/
theorem invoke_chain_success_output (env : PipelineEnv) (query : String)
    (docs : List Document) (output : String)
    (hload : env.load_retriever = Except.ok ())
    (hdocs : env.retriever_invoke query = Except.ok docs)
    (hne : docs ≠ [])
    (hllm : env.load_llm = Except.ok ())
    (hgen : env.llm_invoke (render_product_bot (docs_to_text docs) query) = Except.ok output) :
    (invoke_chain env query).1 = output ∧
    ProviderCall.generate (render_product_bot (docs_to_text docs) query) ∈
      (invoke_chain env query).2 ∧
    ∃ a b c, render_product_bot (docs_to_text docs) query =
      a ++ docs_to_text docs ++ b ++ query ++ c := by
  have hlen : ¬ docs.length = 0 := fun h => hne (List.length_eq_zero.mp h)
  unfold invoke_chain
  simp only [hload, hdocs, if_neg hlen, hllm, hgen]
  refine ⟨by trivial, ?_, promptPart1, promptPart2, promptPart3, rfl⟩
  simp

/-- Witness for C4 at a concrete environment. -/
theorem invoke_chain_success_output_witness :
    (invoke_chain envOneDocB "test query").1 = "AI response" ∧
    ProviderCall.generate
      (render_product_bot (docs_to_text [{ page_content := "Great headphones" }]) "test query") ∈
      (invoke_chain envOneDocB "test query").2 ∧
    ∃ a b c, render_product_bot (docs_to_text [{ page_content := "Great headphones" }]) "test query" =
      a ++ docs_to_text [{ page_content := "Great headphones" }] ++ b ++ "test query" ++ c :=
  invoke_chain_success_output envOneDocB "test query"
    [{ page_content := "Great headphones" }] "AI response"
    rfl rfl (by decide) rfl rfl

/-- C6: the retriever handle requests top-k 3 when the configuration has no
retriever section, and the configured `top_k` verbatim when it has one. -/
theorem load_retriever_top_k_spec (config : Config) (k : Nat)
    (h : config.retriever = some { top_k := some k }) :
    load_retriever_top_k { retriever := none } = 3 ∧
    load_retriever_top_k config = k := by
  refine ⟨rfl, ?_⟩
  unfold load_retriever_top_k
  rw [h]

/-- Witness for C6 with `top_k = 5`, as in the tests of the repository. -/
theorem load_retriever_top_k_spec_witness :
    load_retriever_top_k { retriever := none } = 3 ∧
    load_retriever_top_k { retriever := some { top_k := some 5 } } = 5 :=
  load_retriever_top_k_spec { retriever := some { top_k := some 5 } } 5 rfl

/-- C7: ingestion of a table missing any required column fails with the
data-validation error, whose message names every column of the required set;
no embedding or vector-store call is modelled as having occurred (validation
happens at construction, before the provider calls of the pipeline). -/
theorem data_ingestion_missing_column (columns : List String) (c : String)
    (hc : c ∈ required_columns) (hmissing : c ∉ columns) :
    data_ingestion_validate columns =
      Except.error ("CSV must contain columns: " ++ String.intercalate ", " required_columns) ∧
    ∀ col ∈ required_columns,
      ∃ a b, "CSV must contain columns: " ++ String.intercalate ", " required_columns =
        a ++ col ++ b := by
  constructor
  · unfold data_ingestion_validate
    have hall : required_columns.all (fun col => columns.contains col) = false := by
      rw [List.all_eq_false]
      exact ⟨c, hc, by simpa using hmissing⟩
    rw [hall]
    rfl
  · intro col hcol
    simp only [required_columns, List.mem_cons, List.not_mem_nil, or_false] at hcol
    rcases hcol with h | h | h | h | h <;> subst h
    · exact ⟨"CSV must contain columns: ", ", product_title, rating, summary, review", by decide⟩
    · exact ⟨"CSV must contain columns: product_id, ", ", rating, summary, review", by decide⟩
    · exact ⟨"CSV must contain columns: product_id, product_title, ", ", summary, review", by decide⟩
    · exact ⟨"CSV must contain columns: product_id, product_title, rating, ", ", review", by decide⟩
    · exact ⟨"CSV must contain columns: product_id, product_title, rating, summary, ", "", by decide⟩

/-- Witness for C7: the invalid table used by the test
`test_data_validation` (columns `product_id`, `title`, `score`). -/
theorem data_ingestion_missing_column_witness :
    data_ingestion_validate ["product_id", "title", "score"] =
      Except.error ("CSV must contain columns: " ++ String.intercalate ", " required_columns) ∧
    ∀ col ∈ required_columns,
      ∃ a b, "CSV must contain columns: " ++ String.intercalate ", " required_columns =
        a ++ col ++ b :=
  data_ingestion_missing_column ["product_id", "title", "score"] "product_title"
    (by decide) (by decide)

/-- The environment of the example given in the claim: only `GOOGLE_API_KEY` set. -/
def envOnlyGoogle : Environ :=
  fun v => if v = "GOOGLE_API_KEY" then some "test_google_api_key" else none

/-- C8 counterexample: with only `GOOGLE_API_KEY` set — three of the four
required variables unset — `check_environment` does return `False`, but
`ModelLoader` does not raise: it validates only `GOOGLE_API_KEY`, so its
construction succeeds, contrary to the claimed "ModelLoader raises an
EnvironmentError". -/
theorem model_loader_not_raising_counterexample :
    (check_environment envOnlyGoogle).1 = false ∧
    model_loader_init envOnlyGoogle = Except.ok () :=
  ⟨rfl, rfl⟩

/-- C8 (amended): when any of the four required variables is unset or empty,
`check_environment` returns `False` and its printed list enumerates exactly
the missing names and no others — with only `GOOGLE_API_KEY` set it names
exactly the other three; `ModelLoader` raises the `EnvironmentError` naming
`GOOGLE_API_KEY` exactly when that variable is among the missing ones. -/
theorem check_environment_missing_vars (env : Environ) (v : String)
    (hv : v ∈ required_vars) (hmiss : getenv_truthy env v = false) :
    (check_environment env).1 = false ∧
    (∀ w, w ∈ (check_environment env).2 ↔ w ∈ required_vars ∧ getenv_truthy env w = false) ∧
    (check_environment envOnlyGoogle).2 =
      ["ASTRA_DB_API_ENDPOINT", "ASTRA_DB_APPLICATION_TOKEN", "ASTRA_DB_KEYSPACE"] ∧
    (getenv_truthy env "GOOGLE_API_KEY" = false →
      model_loader_init env =
        Except.error "Missing environment variables: [\x27GOOGLE_API_KEY\x27]") := by
  have hne : v ∈ missing_vars env :=
    List.mem_filter.mpr ⟨hv, by simp [hmiss]⟩
  have hnil : missing_vars env ≠ [] := List.ne_nil_of_mem hne
  have hempty : (missing_vars env).isEmpty = false := by
    simpa [List.isEmpty_iff] using hnil
  have hcheck : check_environment env = (false, missing_vars env) := by
    unfold check_environment
    rw [hempty]
    rfl
  refine ⟨?_, ?_, ?_, ?_⟩
  · rw [hcheck]
  · intro w
    rw [hcheck]
    simp [missing_vars, List.mem_filter]
  · rfl
  · intro hg
    have hf : (model_loader_required_vars.filter fun var => !getenv_truthy env var) =
        ["GOOGLE_API_KEY"] := by
      simp [model_loader_required_vars, hg]
    unfold model_loader_init
    simp only [hf]
    exact congrArg Except.error (by decide)

/-- Witness for the amended C8: the empty environment, where all four
required variables are unset. -/
theorem check_environment_missing_vars_witness :
    (check_environment (fun _ => none)).1 = false ∧
    (∀ w, w ∈ (check_environment (fun _ => none)).2 ↔
      w ∈ required_vars ∧ getenv_truthy (fun _ => none) w = false) ∧
    (check_environment envOnlyGoogle).2 =
      ["ASTRA_DB_API_ENDPOINT", "ASTRA_DB_APPLICATION_TOKEN", "ASTRA_DB_KEYSPACE"] ∧
    (getenv_truthy (fun _ => none) "GOOGLE_API_KEY" = false →
      model_loader_init (fun _ => none) =
        Except.error "Missing environment variables: [\x27GOOGLE_API_KEY\x27]") :=
  check_environment_missing_vars (fun _ => none) "GOOGLE_API_KEY" (by decide) rfl

/-- C10: a required variable set to the empty string is treated by
`check_environment` exactly as if it were unset: the check fails, the
variable is listed as missing, and the result is the same as for the
environment from which the variable is removed. -/
theorem check_environment_empty_string (env : Environ) (v : String)
    (hv : v ∈ required_vars) (hval : env v = some "") :
    (check_environment env).1 = false ∧
    v ∈ (check_environment env).2 ∧
    check_environment env = check_environment (fun w => if w = v then none else env w) := by
  have hmiss : getenv_truthy env v = false := by simp [getenv_truthy, hval]
  have hne : v ∈ missing_vars env :=
    List.mem_filter.mpr ⟨hv, by simp [hmiss]⟩
  have hnil : missing_vars env ≠ [] := List.ne_nil_of_mem hne
  have hempty : (missing_vars env).isEmpty = false := by
    simpa [List.isEmpty_iff] using hnil
  have htruthy : ∀ w, getenv_truthy (fun u => if u = v then none else env u) w =
      getenv_truthy env w := by
    intro w
    by_cases hw : w = v
    · subst hw
      simp [getenv_truthy, hval]
    · simp [getenv_truthy, hw]
  have hmv : missing_vars (fun u => if u = v then none else env u) = missing_vars env := by
    unfold missing_vars
    exact List.filter_congr fun a _ => by rw [htruthy]
  have hcheck : check_environment env = (false, missing_vars env) := by
    unfold check_environment
    rw [hempty]
    rfl
  refine ⟨?_, ?_, ?_⟩
  · rw [hcheck]
  · rw [hcheck]
    exact hne
  · unfold check_environment
    rw [hmv]

/-- Witness for C10: `GOOGLE_API_KEY` present but empty, the other three
set. -/
theorem check_environment_empty_string_witness :
    (check_environment (fun w => if w = "GOOGLE_API_KEY" then some "" else some "x")).1 = false ∧
    "GOOGLE_API_KEY" ∈
      (check_environment (fun w => if w = "GOOGLE_API_KEY" then some "" else some "x")).2 ∧
    check_environment (fun w => if w = "GOOGLE_API_KEY" then some "" else some "x") =
      check_environment (fun w => if w = "GOOGLE_API_KEY" then none
        else if w = "GOOGLE_API_KEY" then some "" else some "x") :=
  check_environment_empty_string
    (fun w => if w = "GOOGLE_API_KEY" then some "" else some "x") "GOOGLE_API_KEY"
    (by decide) (by decide)

end Chatbot
